/-
  Verification of the virtual-doctor recommendation engine
  (`medicine_service.py`, `symptom_checker.py`, `models/medicine.py`).

  Shallow embedding: the SQLAlchemy tables become lists of records in a `DB`
  value; queries become list searches in storage order; Python floats are
  modelled as exact rationals (ℚ); Python exceptions (in particular the
  `NameError` raised in `symptom_checker.py` because `and_` is never imported
  there) are modelled with `Except Unit`.
-/
import Mathlib

namespace VirtualDoctor

/-- `models/medicine.py` `Medicine`. Only the columns the recommendation
engine reads are carried (identity, names, and the three safety columns);
the remaining free-text columns are never inspected by the engine. -/
structure Medicine where
  id : Nat
  brand_name : Option String
  generic_name : String
  pregnancy_category : Option String
  pediatric_use : Option String
  geriatric_use : Option String
deriving DecidableEq, Repr

/-- `models/medicine.py` `Symptom` (columns read by the engine). -/
structure Symptom where
  id : Nat
  name : String
deriving DecidableEq, Repr

/-- `models/medicine.py` `PatientCondition` (columns read by the engine). -/
structure PatientCondition where
  id : Nat
  name : String
deriving DecidableEq, Repr

/-- `models/medicine.py` `MedicineSymptom`: effectiveness edge. -/
structure MedicineSymptom where
  medicine_id : Nat
  symptom_id : Nat
  effectiveness_score : ℚ
  contraindicated : Bool
deriving DecidableEq, Repr

/-- `models/medicine.py` `MedicineContraindication`. -/
structure MedicineContraindication where
  medicine_id : Nat
  condition_id : Nat
  severity : String
  notes : String
deriving DecidableEq, Repr

/-- The database snapshot the services query. Lists are in storage order:
`query(...).first()` is `List.find?`, `query(...).all()` is `List.filter`. -/
structure DB where
  medicines : List Medicine
  symptoms : List Symptom
  conditions : List PatientCondition
  medicine_symptoms : List MedicineSymptom
  contraindications : List MedicineContraindication
deriving DecidableEq, Repr

/-- Contiguous-sublist test on character lists: `charsContain needle hay` is
true iff `needle` occurs inside `hay`. Models Python's `needle in hay` on
strings and a SQL `LIKE '%needle%'` pattern. -/
def charsContain (needle : List Char) : List Char → Bool
  | [] => needle.isEmpty
  | c :: t => needle.isPrefixOf (c :: t) || charsContain needle t

/-- ASCII case folding of one character, as Python `str.lower` and SQL
`ILIKE` treat the names stored here. -/
def lower_char (c : Char) : Char :=
  if 65 ≤ c.toNat ∧ c.toNat ≤ 90 then Char.ofNat (c.toNat + 32) else c

/-- ASCII case folding of a character list. -/
def lower_chars (l : List Char) : List Char := l.map lower_char

/-- `column.ilike(f"%{term}%")`: the caller-supplied term occurs inside the
stored text, case-insensitively. -/
def ilike_contains (stored term : String) : Bool :=
  charsContain (lower_chars term.data) (lower_chars stored.data)

/-- Python truthiness of a nullable Text column: `None` and `""` are falsy. -/
def truthy_text : Option String → Bool
  | none => false
  | some s => !s.isEmpty

/-- `MedicineService.get_medicine_effectiveness`: stored edge score, 0.0 when
no edge exists. -/
def get_medicine_effectiveness (db : DB) (medicine_id symptom_id : Nat) : ℚ :=
  match db.medicine_symptoms.find?
      (fun ms => ms.medicine_id == medicine_id && ms.symptom_id == symptom_id) with
  | some relationship => relationship.effectiveness_score
  | none => 0

/-- `MedicineService.is_medicine_contraindicated`: a contraindication edge
exists for the pair. -/
def is_medicine_contraindicated (db : DB) (medicine_id condition_id : Nat) : Bool :=
  (db.contraindications.find?
    (fun c => c.medicine_id == medicine_id && c.condition_id == condition_id)).isSome

/-- `MedicineService.search_medicines_by_symptoms`. Note the symptom lookup is
`Symptom.name.in_(symptoms)`: exact name membership (SQLite `IN` on a plain
string column), not an `ilike` substring match. -/
def search_medicines_by_symptoms (db : DB) (symptoms : List String) : List Medicine :=
  if symptoms.isEmpty then []
  else
    let symptom_objects := db.symptoms.filter (fun s => symptoms.contains s.name)
    if symptom_objects.isEmpty then []
    else
      let symptom_ids := symptom_objects.map (fun s => s.id)
      let medicine_symptoms := db.medicine_symptoms.filter
        (fun ms => symptom_ids.contains ms.symptom_id && ms.contraindicated == false)
      let medicine_ids := medicine_symptoms.map (fun ms => ms.medicine_id)
      if medicine_ids.isEmpty then []
      else db.medicines.filter (fun m => medicine_ids.contains m.id)

/-- The symptom resolution used inside `SymptomChecker`:
`query(Symptom).filter(Symptom.name.ilike(f"%{name}%")).first()`. -/
def resolve_symptom (db : DB) (name : String) : Option Symptom :=
  db.symptoms.find? (fun s => ilike_contains s.name name)

/-- The condition resolution used inside `SymptomChecker`:
`query(PatientCondition).filter(...ilike(f"%{name}%")).first()`. -/
def resolve_condition (db : DB) (name : String) : Option PatientCondition :=
  db.conditions.find? (fun c => ilike_contains c.name name)

/-- The requested symptom names that resolve to a stored `Symptom`, in request
order (the loop of `_get_effectiveness_for_symptoms` skips the others). -/
def resolved_symptoms (db : DB) (symptoms : List String) : List Symptom :=
  symptoms.filterMap (fun name => resolve_symptom db name)

/-- `SymptomChecker._get_effectiveness_for_symptoms`: average the per-symptom
edge scores over the count of resolved symptoms. -/
def get_effectiveness_for_symptoms (db : DB) (medicine : Medicine)
    (symptoms : List String) : ℚ :=
  if symptoms.isEmpty then 0
  else
    let resolved := resolved_symptoms db symptoms
    let total_score :=
      (resolved.map (fun s => get_medicine_effectiveness db medicine.id s.id)).sum
    if resolved.length > 0 then total_score / (resolved.length : ℚ) else 0

/-- The condition loop of `SymptomChecker._calculate_safety_score`
(lines 101-121). When a condition name resolves AND a contraindication edge
exists, the body evaluates `and_(...)`, but `symptom_checker.py` never imports
`and_` from sqlalchemy, so Python raises `NameError` there — modelled as
`Except.error ()`. The per-severity subtractions (lines 116-121) are therefore
unreachable, and a successful pass accumulates penalty 0. -/
def safety_condition_penalty (db : DB) (medicine_id : Nat) :
    List String → Except Unit ℚ
  | [] => Except.ok 0
  | condition_name :: rest =>
    match resolve_condition db condition_name with
    | some condition =>
      if is_medicine_contraindicated db medicine_id condition.id then
        Except.error ()
      else safety_condition_penalty db medicine_id rest
    | none => safety_condition_penalty db medicine_id rest

/-- `SymptomChecker._calculate_safety_score` before its final
`max(0, safety_score)` clamp. Follows the source order: condition penalties,
then the age block (`if age:` — so age 0 is falsy and skips the block), then
the pregnancy-category block. -/
def calculate_safety_score_unclamped (db : DB) (medicine : Medicine)
    (conditions : List String) (age : Option Int) : Except Unit ℚ :=
  match safety_condition_penalty db medicine.id conditions with
  | Except.error e => Except.error e
  | Except.ok penalty =>
    let s1 : ℚ := 1 - penalty
    let s2 : ℚ :=
      match age with
      | none => s1
      | some a =>
        if a = 0 then s1
        else if a < 12 then
          (if truthy_text medicine.pediatric_use then s1 else s1 - 0.3)
        else if a > 65 then
          (if truthy_text medicine.geriatric_use then s1 else s1 - 0.2)
        else s1
    let s3 : ℚ :=
      if medicine.pregnancy_category = some "X" then s2 - 0.8
      else if medicine.pregnancy_category = some "D" then s2 - 0.5
      else if medicine.pregnancy_category = some "C" then s2 - 0.2
      else s2
    Except.ok s3

/-- `SymptomChecker._calculate_safety_score` (line 140 clamps at 0). -/
def calculate_safety_score (db : DB) (medicine : Medicine)
    (conditions : List String) (age : Option Int) : Except Unit ℚ :=
  (calculate_safety_score_unclamped db medicine conditions age).map (fun s => max 0 s)

/-- Pregnancy block of `SymptomChecker._get_safety_warnings`. -/
def pregnancy_warnings (medicine : Medicine) : List String :=
  if medicine.pregnancy_category = some "X" then
    ["DO NOT USE during pregnancy - may cause birth defects"]
  else if medicine.pregnancy_category = some "D" then
    ["Avoid during pregnancy - may cause harm to fetus"]
  else if medicine.pregnancy_category = some "C" then
    ["Use with caution during pregnancy - consult doctor"]
  else []

/-- Age block of `SymptomChecker._get_safety_warnings`
(`if age and age < 12: ... elif age and age > 65: ...`). -/
def age_warnings (medicine : Medicine) (age : Option Int) : List String :=
  match age with
  | none => []
  | some a =>
    if a ≠ 0 ∧ a < 12 then
      (if truthy_text medicine.pediatric_use then [] else
        ["Not recommended for children under 12"])
    else if a ≠ 0 ∧ a > 65 then
      (if truthy_text medicine.geriatric_use then [] else
        ["Use with caution in elderly patients"])
    else []

/-- Condition loop of `SymptomChecker._get_safety_warnings` (lines 163-178):
the same missing-`and_` `NameError` as in `safety_condition_penalty`, so a
successful pass appends no condition warnings. -/
def warn_condition_loop (db : DB) (medicine_id : Nat) :
    List String → Except Unit (List String)
  | [] => Except.ok []
  | condition_name :: rest =>
    match resolve_condition db condition_name with
    | some condition =>
      if is_medicine_contraindicated db medicine_id condition.id then
        Except.error ()
      else warn_condition_loop db medicine_id rest
    | none => warn_condition_loop db medicine_id rest

/-- `SymptomChecker._get_safety_warnings`. -/
def get_safety_warnings (db : DB) (medicine : Medicine)
    (conditions : List String) (age : Option Int) : Except Unit (List String) :=
  match warn_condition_loop db medicine.id conditions with
  | Except.error e => Except.error e
  | Except.ok condition_warnings =>
    Except.ok (pregnancy_warnings medicine ++ age_warnings medicine age
      ++ condition_warnings)

/-- `SymptomChecker._calculate_medicine_score`: 0.6 × effectiveness +
0.4 × safety, then the severity multiplier, then `max(0, score)`.
`gender` is accepted but unused, exactly as in the source. -/
def calculate_medicine_score (db : DB) (medicine : Medicine)
    (symptoms conditions : List String) (age : Option Int)
    (gender : Option String) (severity : String) : Except Unit ℚ :=
  let effectiveness := get_effectiveness_for_symptoms db medicine symptoms
  match calculate_safety_score db medicine conditions age with
  | Except.error e => Except.error e
  | Except.ok safety_score =>
    let score : ℚ := effectiveness * 0.6 + safety_score * 0.4
    let adjusted : ℚ :=
      if severity = "mild" then score * 0.8
      else if severity = "severe" then score * 1.2
      else score
    Except.ok (max 0 adjusted)

/-- One entry of the list `get_recommendations` returns (the Python dict with
keys `medicine`, `score`, `effectiveness`, `safety_warnings`). -/
structure Recommendation where
  medicine : Medicine
  score : ℚ
  effectiveness : ℚ
  safety_warnings : List String
deriving DecidableEq, Repr

/-- The scoring loop of `SymptomChecker.get_recommendations` (lines 36-47):
keep a medicine only when its score is strictly positive. -/
def score_medicines_loop (db : DB) (symptoms conditions : List String)
    (age : Option Int) (gender : Option String) (severity : String) :
    List Medicine → Except Unit (List Recommendation)
  | [] => Except.ok []
  | medicine :: rest =>
    match calculate_medicine_score db medicine symptoms conditions age gender severity with
    | Except.error e => Except.error e
    | Except.ok score =>
      if score > 0 then
        match get_safety_warnings db medicine conditions age with
        | Except.error e => Except.error e
        | Except.ok warnings =>
          match score_medicines_loop db symptoms conditions age gender severity rest with
          | Except.error e => Except.error e
          | Except.ok tail =>
            Except.ok (Recommendation.mk medicine score
              (get_effectiveness_for_symptoms db medicine symptoms) warnings :: tail)
      else score_medicines_loop db symptoms conditions age gender severity rest

/-- Descending-score order on recommendations, the key order of
`scored_medicines.sort(key=lambda x: x["score"], reverse=True)`. -/
def rec_ge (a b : Recommendation) : Prop := b.score ≤ a.score

instance : DecidableRel rec_ge :=
  fun a b => inferInstanceAs (Decidable (b.score ≤ a.score))

instance : IsTotal Recommendation rec_ge :=
  ⟨fun a b => le_total b.score a.score⟩

instance : IsTrans Recommendation rec_ge :=
  ⟨fun _ _ _ hab hbc => le_trans hbc hab⟩

/-- `SymptomChecker.get_recommendations`: empty symptom list short-circuits,
candidates come from `search_medicines_by_symptoms`, positive-scored entries
are sorted by descending score and truncated to the top 10. Python's
`list.sort(key=..., reverse=True)` is a stable sort, and a stable sort's
output is uniquely determined by the key order and the input order, so the
stable `List.insertionSort rec_ge` produces the identical list. -/
def get_recommendations (db : DB) (symptoms conditions : List String)
    (age : Option Int) (gender : Option String) (severity : String) :
    Except Unit (List Recommendation) :=
  if symptoms.isEmpty then Except.ok []
  else
    let medicines := search_medicines_by_symptoms db symptoms
    if medicines.isEmpty then Except.ok []
    else
      match score_medicines_loop db symptoms conditions age gender severity medicines with
      | Except.error e => Except.error e
      | Except.ok scored =>
        Except.ok ((List.insertionSort rec_ge scored).take 10)

/-- Value of a digit run, as `int(...)` reads it. -/
def digits_value (l : List Char) : Nat :=
  l.foldl (fun acc c => acc * 10 + (c.toNat - 48)) 0

/-- The tail of the age pattern `(\d+)\s*(?:years?|yrs?|old)`: after the
digits and optional whitespace, one of the keywords must follow. -/
def age_keyword_follows (l : List Char) : Bool :=
  "year".data.isPrefixOf l || "yr".data.isPrefixOf l || "old".data.isPrefixOf l

/-- `re.search(r"(\d+)\s*(?:years?|yrs?|old)", text)` group 1 as an integer:
scan left to right; at a digit, take the maximal digit run and the maximal
following whitespace run and test for a keyword (shorter runs cannot match,
as the keywords start with letters), else advance one character. -/
def find_age : List Char → Option Nat
  | [] => none
  | c :: rest =>
    if c.isDigit then
      let digits := List.takeWhile Char.isDigit (c :: rest)
      let after := List.dropWhile Char.isDigit (c :: rest)
      let after_ws := List.dropWhile Char.isWhitespace after
      if age_keyword_follows after_ws then some (digits_value digits)
      else find_age rest
    else find_age rest

/-- Gender cue words checked first (`symptom_checker.py` line 255). -/
def male_cues : List String := ["male", "man", "boy", "he", "him"]

/-- Gender cue words checked second (line 257). -/
def female_cues : List String := ["female", "woman", "girl", "she", "her"]

/-- Gender part of `SymptomChecker._extract_patient_info`: Python's
`word in text.lower()` is substring containment, not word matching. -/
def extract_gender (text : String) : Option String :=
  if male_cues.any (fun w => charsContain w.data (lower_chars text.data)) then
    some "male"
  else if female_cues.any (fun w => charsContain w.data (lower_chars text.data)) then
    some "female"
  else none

/-- Condition part of `SymptomChecker._extract_patient_info`: every stored
condition whose lowercased name occurs in the lowercased text, storage order. -/
def extract_conditions (db : DB) (text : String) : List String :=
  (db.conditions.filter
    (fun c => charsContain (lower_chars c.name.data) (lower_chars text.data))).map
      (fun c => c.name)

/-- Result of `SymptomChecker._extract_patient_info`; an absent dict key is
`none` / the empty list. -/
structure PatientInfo where
  age : Option Nat
  gender : Option String
  conditions : List String
deriving DecidableEq, Repr

/-- `SymptomChecker._extract_patient_info`. -/
def extract_patient_info (db : DB) (text : String) : PatientInfo :=
  PatientInfo.mk (find_age (lower_chars text.data)) (extract_gender text)
    (extract_conditions db text)

/-- Modelled from the spec's words (§4.1), for comparison with
`search_medicines_by_symptoms`: the set of medicines having at least one
non-contraindicated effectiveness edge to a stored symptom whose name matches
a requested term by case-insensitive substring containment. -/
def spec_search_medicines_by_symptoms (db : DB) (symptoms : List String) :
    List Medicine :=
  db.medicines.filter (fun m =>
    db.medicine_symptoms.any (fun ms =>
      ms.medicine_id == m.id && ms.contraindicated == false &&
      db.symptoms.any (fun s =>
        s.id == ms.symptom_id && symptoms.any (fun t => ilike_contains s.name t))))

/-- Modelled from the claim's words (C6): the maximal alphanumeric words of
the lowercased text, for the reading of a cue appearing "as a word". -/
def words_aux (cur : List Char) : List Char → List (List Char)
  | [] => if cur.isEmpty then [] else [cur.reverse]
  | c :: rest =>
    if c.isAlphanum then words_aux (c :: cur) rest
    else if cur.isEmpty then words_aux [] rest
    else cur.reverse :: words_aux [] rest

/-- Modelled from the claim's words (C6): `w` occurs as a whole word of
`text`, case-insensitively. -/
def appears_as_word (w text : String) : Bool :=
  (words_aux [] (lower_chars text.data)).contains (lower_chars w.data)

/-! Concrete database snapshots used as test inputs. -/

/-- A medicine with no safety flags at all. -/
def med1 : Medicine := Medicine.mk 1 (some "Testol") "testol" none none none

/-- Snapshot with one medicine treating Fever (score 0.9) and a severe
contraindication edge to the stored condition Diabetes. -/
def db_contra : DB :=
  DB.mk [med1] [Symptom.mk 1 "Fever"] [PatientCondition.mk 1 "Diabetes"]
    [MedicineSymptom.mk 1 1 0.9 false]
    [MedicineContraindication.mk 1 1 "severe" "Avoid"]

/-- Snapshot with one medicine treating Fever (score 0.9), no conditions. -/
def db_plain : DB :=
  DB.mk [med1] [Symptom.mk 1 "Fever"] [] [MedicineSymptom.mk 1 1 0.9 false] []

/-- Snapshot with a perfectly effective (score 1.0) medicine for Fever. -/
def db_max : DB :=
  DB.mk [med1] [Symptom.mk 1 "Fever"] [] [MedicineSymptom.mk 1 1 1 false] []

/-- Snapshot whose only stored symptom is named Headache. -/
def db_head : DB :=
  DB.mk [med1] [Symptom.mk 1 "Headache"] [] [MedicineSymptom.mk 1 1 0.7 false] []

/-- Snapshot whose only content is the stored condition Diabetes. -/
def db_diab : DB := DB.mk [] [] [PatientCondition.mk 1 "Diabetes"] [] []

/-- The empty snapshot. -/
def db_empty : DB := DB.mk [] [] [] [] []

/-! General lemmas about the embedded operations. -/

theorem safety_condition_penalty_ok (db : DB) (mid : Nat) :
    ∀ (cs : List String) (p : ℚ),
      safety_condition_penalty db mid cs = Except.ok p → p = 0 := by
  intro cs
  induction cs with
  | nil =>
    intro p h
    simp only [safety_condition_penalty, Except.ok.injEq] at h
    exact h.symm
  | cons c rest ih =>
    intro p h
    simp only [safety_condition_penalty] at h
    rcases hrc : resolve_condition db c with _ | cond
    · rw [hrc] at h
      exact ih p h
    · rw [hrc] at h
      by_cases hic : is_medicine_contraindicated db mid cond.id
      · simp [hic] at h
      · simp only [hic, if_neg, Bool.false_eq_true, if_false] at h
        exact ih p h

theorem calculate_safety_score_unclamped_le_one (db : DB) (m : Medicine)
    (cs : List String) (a : Option Int) (s : ℚ)
    (h : calculate_safety_score_unclamped db m cs a = Except.ok s) : s ≤ 1 := by
  unfold calculate_safety_score_unclamped at h
  rcases hp : safety_condition_penalty db m.id cs with _ | p
  · rw [hp] at h; exact absurd h (by simp)
  · rw [hp] at h
    have hp0 : p = 0 := safety_condition_penalty_ok db m.id cs p hp
    subst hp0
    simp only [Except.ok.injEq] at h
    subst h
    rcases a with _ | a <;> split_ifs <;> norm_num
    all_goals split_ifs <;> norm_num

theorem calculate_safety_score_bounds (db : DB) (m : Medicine)
    (cs : List String) (a : Option Int) (v : ℚ)
    (h : calculate_safety_score db m cs a = Except.ok v) : 0 ≤ v ∧ v ≤ 1 := by
  unfold calculate_safety_score at h
  rcases hu : calculate_safety_score_unclamped db m cs a with _ | s
  · rw [hu] at h; exact absurd h (by simp [Except.map])
  · rw [hu] at h
    simp only [Except.map, Except.ok.injEq] at h
    subst h
    refine ⟨le_max_left _ _, max_le (by norm_num) ?_⟩
    exact calculate_safety_score_unclamped_le_one db m cs a s hu

theorem get_medicine_effectiveness_bounds (db : DB)
    (H : ∀ ms ∈ db.medicine_symptoms,
      0 ≤ ms.effectiveness_score ∧ ms.effectiveness_score ≤ 1)
    (mid sid : Nat) :
    0 ≤ get_medicine_effectiveness db mid sid ∧
      get_medicine_effectiveness db mid sid ≤ 1 := by
  unfold get_medicine_effectiveness
  rcases hf : db.medicine_symptoms.find?
      (fun ms => ms.medicine_id == mid && ms.symptom_id == sid) with _ | r
  · simp only [hf]
    norm_num
  · simp only [hf]
    exact H r (List.mem_of_find?_eq_some hf)

theorem get_effectiveness_for_symptoms_bounds (db : DB) (m : Medicine)
    (S : List String)
    (H : ∀ ms ∈ db.medicine_symptoms,
      0 ≤ ms.effectiveness_score ∧ ms.effectiveness_score ≤ 1) :
    0 ≤ get_effectiveness_for_symptoms db m S ∧
      get_effectiveness_for_symptoms db m S ≤ 1 := by
  unfold get_effectiveness_for_symptoms
  dsimp only
  split_ifs with h1 h2
  · norm_num
  · set scores :=
      (resolved_symptoms db S).map (fun s => get_medicine_effectiveness db m.id s.id)
      with hscores
    have hmem : ∀ q ∈ scores, 0 ≤ q ∧ q ≤ 1 := by
      intro q hq
      rw [hscores] at hq
      rcases List.mem_map.mp hq with ⟨s, _, rfl⟩
      exact get_medicine_effectiveness_bounds db H m.id s.id
    have hlen : scores.length = (resolved_symptoms db S).length := by
      rw [hscores]; exact List.length_map _ _
    have hsum0 : 0 ≤ scores.sum := List.sum_nonneg (fun q hq => (hmem q hq).1)
    have hsum1 : scores.sum ≤ (scores.length : ℚ) := by
      have := List.sum_le_card_nsmul scores 1 (fun q hq => (hmem q hq).2)
      simpa using this
    have hlpos : 0 < ((resolved_symptoms db S).length : ℚ) := by
      exact_mod_cast h2
    constructor
    · exact div_nonneg hsum0 (le_of_lt hlpos)
    · rw [div_le_one hlpos]
      calc scores.sum ≤ (scores.length : ℚ) := hsum1
        _ = ((resolved_symptoms db S).length : ℚ) := by rw [hlen]
  · norm_num

theorem calculate_medicine_score_nonneg (db : DB) (m : Medicine)
    (S C : List String) (a : Option Int) (g : Option String) (sev : String)
    (v : ℚ) (h : calculate_medicine_score db m S C a g sev = Except.ok v) :
    0 ≤ v := by
  unfold calculate_medicine_score at h
  rcases hs : calculate_safety_score db m C a with _ | s
  · rw [hs] at h; exact absurd h (by simp)
  · rw [hs] at h
    simp only [Except.ok.injEq] at h
    subst h
    exact le_max_left _ _

theorem calculate_medicine_score_le (db : DB) (m : Medicine)
    (S C : List String) (a : Option Int) (g : Option String) (sev : String)
    (v : ℚ)
    (H : ∀ ms ∈ db.medicine_symptoms,
      0 ≤ ms.effectiveness_score ∧ ms.effectiveness_score ≤ 1)
    (h : calculate_medicine_score db m S C a g sev = Except.ok v) :
    v ≤ 6 / 5 := by
  unfold calculate_medicine_score at h
  rcases hs : calculate_safety_score db m C a with _ | s
  · rw [hs] at h; exact absurd h (by simp)
  · rw [hs] at h
    simp only [Except.ok.injEq] at h
    subst h
    have he := get_effectiveness_for_symptoms_bounds db m S H
    have hsb := calculate_safety_score_bounds db m C a s hs
    set e := get_effectiveness_for_symptoms db m S with hedef
    have hbase : e * 0.6 + s * 0.4 ≤ 1 := by
      have h1 : e * 0.6 ≤ 1 * 0.6 :=
        mul_le_mul_of_nonneg_right he.2 (by norm_num)
      have h2 : s * 0.4 ≤ 1 * 0.4 :=
        mul_le_mul_of_nonneg_right hsb.2 (by norm_num)
      linarith
    split_ifs
    · refine max_le (by norm_num) ?_
      have : (e * 0.6 + s * 0.4) * 0.8 ≤ 1 * 0.8 :=
        mul_le_mul_of_nonneg_right hbase (by norm_num)
      linarith
    · refine max_le (by norm_num) ?_
      have : (e * 0.6 + s * 0.4) * 1.2 ≤ 1 * 1.2 :=
        mul_le_mul_of_nonneg_right hbase (by norm_num)
      linarith
    · refine max_le (by norm_num) ?_
      linarith

theorem score_medicines_loop_mem (db : DB) (S C : List String) (a : Option Int)
    (g : Option String) (sev : String) :
    ∀ (ms : List Medicine) (res : List Recommendation),
      score_medicines_loop db S C a g sev ms = Except.ok res →
      ∀ e ∈ res, 0 < e.score ∧
        ∃ m ∈ ms, calculate_medicine_score db m S C a g sev = Except.ok e.score := by
  intro ms
  induction ms with
  | nil =>
    intro res h e he
    simp only [score_medicines_loop, Except.ok.injEq] at h
    subst h
    exact absurd he (List.not_mem_nil e)
  | cons med rest ih =>
    intro res h e he
    simp only [score_medicines_loop] at h
    rcases hc : calculate_medicine_score db med S C a g sev with _ | score
    · rw [hc] at h; exact absurd h (by simp)
    · rw [hc] at h
      dsimp only at h
      by_cases hpos : score > 0
      · rw [if_pos hpos] at h
        rcases hw : get_safety_warnings db med C a with _ | w
        · rw [hw] at h; exact absurd h (by simp)
        · rw [hw] at h
          dsimp only at h
          rcases hl : score_medicines_loop db S C a g sev rest with _ | tail
          · rw [hl] at h; exact absurd h (by simp)
          · rw [hl] at h
            dsimp only at h
            simp only [Except.ok.injEq] at h
            subst h
            rcases List.mem_cons.mp he with heq | ht
            · subst heq
              exact ⟨hpos, med, List.mem_cons_self _ _, hc⟩
            · obtain ⟨h1, m, hm, hcalc⟩ := ih tail hl e ht
              exact ⟨h1, m, List.mem_cons_of_mem _ hm, hcalc⟩
      · rw [if_neg hpos] at h
        obtain ⟨h1, m, hm, hcalc⟩ := ih res h e he
        exact ⟨h1, m, List.mem_cons_of_mem _ hm, hcalc⟩

/-! Claim theorems. -/

/-- C1 (counterexample): the claim's case-insensitive-substring retrieval is
not what `search_medicines_by_symptoms` does. With the stored symptom named
"Headache" and the request `["head"]`, the spec-side set (substring match)
contains the medicine, but the code (exact `IN` name membership) returns
nothing. -/
theorem search_by_symptoms_not_substring_cex :
    search_medicines_by_symptoms db_head ["head"] = [] ∧
      spec_search_medicines_by_symptoms db_head ["head"] = [med1] :=
  ⟨rfl, rfl⟩

/-- C1 (amended): `search_medicines_by_symptoms` returns exactly the stored
medicines having at least one non-contraindicated effectiveness edge to a
stored symptom whose name is exactly equal to one of the requested names
(`Symptom.name.in_(symptoms)`), not a case-insensitive substring match. -/
theorem search_by_symptoms_exact_name_match (db : DB) (req : List String)
    (m : Medicine) :
    m ∈ search_medicines_by_symptoms db req ↔
      m ∈ db.medicines ∧ ∃ ms ∈ db.medicine_symptoms, ms.medicine_id = m.id ∧
        ms.contraindicated = false ∧ ∃ s ∈ db.symptoms, s.id = ms.symptom_id ∧
          s.name ∈ req := by
  unfold search_medicines_by_symptoms
  dsimp only
  split_ifs with h1 h2 h3
  · rw [List.isEmpty_iff] at h1
    subst h1
    simp
  · rw [List.isEmpty_iff, List.filter_eq_nil_iff] at h2
    simp only [List.not_mem_nil, false_iff]
    rintro ⟨-, ms, -, -, -, s, hs, -, hname⟩
    exact h2 s hs (by simpa using hname)
  · rw [List.isEmpty_iff, List.map_eq_nil_iff, List.filter_eq_nil_iff] at h3
    simp only [List.not_mem_nil, false_iff]
    rintro ⟨-, ms, hms, -, hcon, s, hs, hid, hname⟩
    refine h3 ms hms ?_
    simp only [Bool.and_eq_true, beq_iff_eq]
    refine ⟨?_, hcon⟩
    have : ms.symptom_id ∈
        (db.symptoms.filter (fun s => req.contains s.name)).map (fun s => s.id) := by
      refine List.mem_map.mpr ⟨s, ?_, hid⟩
      exact List.mem_filter.mpr ⟨hs, by simpa using hname⟩
    simpa using this
  · simp only [List.mem_filter, List.mem_map, Bool.and_eq_true, beq_iff_eq]
    constructor
    · rintro ⟨hm, hcont⟩
      have : m.id ∈ (db.medicine_symptoms.filter
          (fun ms =>
            ((db.symptoms.filter (fun s => req.contains s.name)).map
              (fun s => s.id)).contains ms.symptom_id &&
            ms.contraindicated == false)).map (fun ms => ms.medicine_id) := by
        simpa using hcont
      rcases List.mem_map.mp this with ⟨ms, hmsf, hmid⟩
      rcases List.mem_filter.mp hmsf with ⟨hms, hb⟩
      simp only [Bool.and_eq_true, beq_iff_eq] at hb
      rcases hb with ⟨hsymid, hcon⟩
      have : ms.symptom_id ∈
          (db.symptoms.filter (fun s => req.contains s.name)).map (fun s => s.id) := by
        simpa using hsymid
      rcases List.mem_map.mp this with ⟨s, hsf, hsid⟩
      rcases List.mem_filter.mp hsf with ⟨hs, hsname⟩
      exact ⟨hm, ms, hms, hmid, hcon, s, hs, hsid, by simpa using hsname⟩
    · rintro ⟨hm, ms, hms, hmid, hcon, s, hs, hid, hname⟩
      refine ⟨hm, ?_⟩
      have hsmem : ms.symptom_id ∈
          (db.symptoms.filter (fun s => req.contains s.name)).map (fun s => s.id) :=
        List.mem_map.mpr ⟨s, List.mem_filter.mpr ⟨hs, by simpa using hname⟩, hid⟩
      have : m.id ∈ (db.medicine_symptoms.filter
          (fun ms =>
            ((db.symptoms.filter (fun s => req.contains s.name)).map
              (fun s => s.id)).contains ms.symptom_id &&
            ms.contraindicated == false)).map (fun ms => ms.medicine_id) := by
        refine List.mem_map.mpr ⟨ms, ?_, hmid⟩
        refine List.mem_filter.mpr ⟨hms, ?_⟩
        simp only [Bool.and_eq_true, beq_iff_eq]
        exact ⟨by simpa using hsmem, hcon⟩
      simpa using this

/-- C2: the recommendation engine does not complete on every input. When a
supplied condition name resolves to a stored `PatientCondition` that has a
contraindication edge to a candidate medicine, `_calculate_safety_score`
evaluates `and_(...)` and Python raises `NameError`, because
`symptom_checker.py` never imports `and_`: here the full pipeline errors on
the concrete snapshot `db_contra` with condition "Diabetes". -/
theorem recommendations_raise_on_contraindicated_condition :
    get_recommendations db_contra ["Fever"] ["Diabetes"] (some 30) (some "male")
      "moderate" = Except.error () := rfl

/-- C3: the per-severity safety penalties are never applied. On the very
input the claim describes (a resolved condition with a severe
contraindication edge), `_calculate_safety_score` raises `NameError` (missing
`and_` import) instead of subtracting 1.0: the severity branch is dead code. -/
theorem safety_score_raises_instead_of_penalty :
    calculate_safety_score db_contra med1 ["Diabetes"] none = Except.error () := rfl

/-- C4: the effectiveness score is the arithmetic mean of the per-symptom
edge scores over the count of resolved symptom names; assuming stored edge
scores lie in [0,1] it lies in [0,1], and it is 0 when the request is empty
or no requested name resolves. -/
theorem effectiveness_mean_bounds :
    ∀ (db : DB) (m : Medicine) (S : List String),
      (∀ ms ∈ db.medicine_symptoms,
        0 ≤ ms.effectiveness_score ∧ ms.effectiveness_score ≤ 1) →
      (0 ≤ get_effectiveness_for_symptoms db m S ∧
        get_effectiveness_for_symptoms db m S ≤ 1) ∧
      (S = [] → get_effectiveness_for_symptoms db m S = 0) ∧
      (resolved_symptoms db S = [] → get_effectiveness_for_symptoms db m S = 0) ∧
      (resolved_symptoms db S ≠ [] →
        get_effectiveness_for_symptoms db m S =
          ((resolved_symptoms db S).map
            (fun s => get_medicine_effectiveness db m.id s.id)).sum /
            ((resolved_symptoms db S).length : ℚ)) := by
  intro db m S H
  refine ⟨get_effectiveness_for_symptoms_bounds db m S H, ?_, ?_, ?_⟩
  · intro hS
    subst hS
    rfl
  · intro hres
    unfold get_effectiveness_for_symptoms
    dsimp only
    rw [hres]
    simp
  · intro hres
    have hS : S.isEmpty = false := by
      rcases S with _ | ⟨x, xs⟩
      · exact absurd rfl hres
      · rfl
    unfold get_effectiveness_for_symptoms
    dsimp only
    rw [hS]
    simp only [Bool.false_eq_true, if_false]
    rw [if_pos (List.length_pos.mpr hres)]

/-- Witness for C4 at a concrete snapshot. -/
theorem effectiveness_mean_bounds_witness :
    0 ≤ get_effectiveness_for_symptoms db_plain med1 ["Fever"] ∧
      get_effectiveness_for_symptoms db_plain med1 ["Fever"] ≤ 1 :=
  (effectiveness_mean_bounds db_plain med1 ["Fever"]
    (by with_unfolding_all decide)).1

/-- C5: `get_recommendations` returns `[]` on an empty symptom list for any
conditions/age/gender/severity; and whenever it returns a list (rather than
raising via the missing-import path), that list is sorted by descending
score, has at most 10 entries, and every entry has strictly positive score. -/
theorem recommend_empty_sorted_bounded :
    (∀ (db : DB) (conditions : List String) (age : Option Int)
        (gender : Option String) (severity : String),
      get_recommendations db [] conditions age gender severity = Except.ok []) ∧
    (∀ (db : DB) (symptoms conditions : List String) (age : Option Int)
        (gender : Option String) (severity : String) (l : List Recommendation),
      get_recommendations db symptoms conditions age gender severity =
        Except.ok l →
      List.Pairwise (fun a b : Recommendation => b.score ≤ a.score) l ∧
        l.length ≤ 10 ∧ ∀ e ∈ l, 0 < e.score) := by
  constructor
  · intro db conds a g sev
    rfl
  · intro db S C a g sev l h
    unfold get_recommendations at h
    by_cases h1 : S.isEmpty
    · rw [if_pos h1] at h
      simp only [Except.ok.injEq] at h
      subst h
      simp
    · rw [if_neg h1] at h
      dsimp only at h
      by_cases h2 : (search_medicines_by_symptoms db S).isEmpty
      · rw [if_pos h2] at h
        simp only [Except.ok.injEq] at h
        subst h
        simp
      · rw [if_neg h2] at h
        rcases hl : score_medicines_loop db S C a g sev
            (search_medicines_by_symptoms db S) with _ | scored
        · rw [hl] at h
          exact absurd h (by simp)
        · rw [hl] at h
          dsimp only at h
          simp only [Except.ok.injEq] at h
          subst h
          refine ⟨?_, ?_, ?_⟩
          · exact List.Pairwise.sublist (List.take_sublist 10 _)
              (List.sorted_insertionSort rec_ge scored)
          · rw [List.length_take]
            exact min_le_left _ _
          · intro e he
            have hmem : e ∈ List.insertionSort rec_ge scored :=
              (List.take_sublist 10 _).subset he
            have hscored : e ∈ scored := (List.mem_insertionSort rec_ge).mp hmem
            exact (score_medicines_loop_mem db S C a g sev _ scored hl e hscored).1

/-- Witness for C5 at a concrete snapshot whose output list is nonempty. -/
theorem recommend_empty_sorted_bounded_witness :
    List.Pairwise (fun a b : Recommendation => b.score ≤ a.score)
        [Recommendation.mk med1 0.94 0.9 []] ∧
      ([Recommendation.mk med1 0.94 0.9 []] : List Recommendation).length ≤ 10 :=
  ⟨(recommend_empty_sorted_bounded.2 db_plain ["Fever"] [] none none "moderate" _
      (by with_unfolding_all rfl)).1,
   (recommend_empty_sorted_bounded.2 db_plain ["Fever"] [] none none "moderate" _
      (by with_unfolding_all rfl)).2.1⟩

/-- C6 (counterexample): the gender cues are matched as substrings of the
text, not as words. In "she is ill" no male cue occurs as a word while the
female cue "she" does, so the claim prescribes gender "female"; but the code
reports "male", because "he" is a substring of "she". -/
theorem gender_word_claim_cex :
    male_cues.all (fun w => !appears_as_word w "she is ill") = true ∧
      ("she" ∈ female_cues ∧ appears_as_word "she" "she is ill" = true) ∧
      (extract_patient_info db_empty "she is ill").gender = some "male" :=
  ⟨rfl, ⟨by decide, rfl⟩, rfl⟩

/-- C6 (amended): gender is "male" if any male cue occurs as a substring of
the lowercased text, else "female" if any female cue occurs as a substring,
else absent, male checked first; and on
"I am a 25 year old male with diabetes" (with "Diabetes" stored) the code
yields age 25, gender "male" and conditions ["Diabetes"]. -/
theorem gender_substring_precedence_and_example :
    (∀ (db : DB) (text : String),
      ((∃ w ∈ male_cues, charsContain w.data (lower_chars text.data) = true) →
        (extract_patient_info db text).gender = some "male") ∧
      ((¬∃ w ∈ male_cues, charsContain w.data (lower_chars text.data) = true) →
        (∃ w ∈ female_cues, charsContain w.data (lower_chars text.data) = true) →
        (extract_patient_info db text).gender = some "female") ∧
      ((¬∃ w ∈ male_cues, charsContain w.data (lower_chars text.data) = true) →
        (¬∃ w ∈ female_cues, charsContain w.data (lower_chars text.data) = true) →
        (extract_patient_info db text).gender = none)) ∧
    extract_patient_info db_diab "I am a 25 year old male with diabetes" =
      PatientInfo.mk (some 25) (some "male") ["Diabetes"] := by
  constructor
  · intro db text
    refine ⟨?_, ?_, ?_⟩
    · intro h
      have hb : male_cues.any
          (fun w => charsContain w.data (lower_chars text.data)) = true :=
        List.any_eq_true.mpr h
      simp [extract_patient_info, extract_gender, hb]
    · intro hm hf
      have hbm : male_cues.any
          (fun w => charsContain w.data (lower_chars text.data)) = false :=
        Bool.eq_false_iff.mpr (fun hc => hm (List.any_eq_true.mp hc))
      have hbf : female_cues.any
          (fun w => charsContain w.data (lower_chars text.data)) = true :=
        List.any_eq_true.mpr hf
      simp [extract_patient_info, extract_gender, hbm, hbf]
    · intro hm hf
      have hbm : male_cues.any
          (fun w => charsContain w.data (lower_chars text.data)) = false :=
        Bool.eq_false_iff.mpr (fun hc => hm (List.any_eq_true.mp hc))
      have hbf : female_cues.any
          (fun w => charsContain w.data (lower_chars text.data)) = false :=
        Bool.eq_false_iff.mpr (fun hc => hf (List.any_eq_true.mp hc))
      simp [extract_patient_info, extract_gender, hbm, hbf]
  · rfl

/-- Witness for C6 on a concrete text where a male cue occurs as a substring. -/
theorem gender_substring_precedence_witness :
    (extract_patient_info db_empty "she is ill").gender = some "male" :=
  (gender_substring_precedence_and_example.1 db_empty "she is ill").1
    ⟨"he", by decide, rfl⟩

/-- C7 (counterexample): age 0 is Python-falsy, so `if age:` skips the age
block entirely. For a medicine with no pediatric-use guidance and age 0, the
safety score stays 1.0 instead of being reduced by 0.3 as the claim states
("including age 0"). -/
theorem age_zero_no_pediatric_penalty_cex :
    med1.pediatric_use = none ∧
      calculate_safety_score db_empty med1 [] (some 0) = Except.ok 1 ∧
      calculate_safety_score db_empty med1 [] none = Except.ok 1 ∧
      (1 : ℚ) ≠ 1 - 0.3 :=
  ⟨rfl, by with_unfolding_all rfl, by with_unfolding_all rfl, by norm_num⟩

/-- C7 (amended): for every nonzero age strictly below 12, a medicine with no
pediatric-use guidance has its (pre-clamp) safety score reduced by 0.3
relative to the same call with no age; for every age above 65, a medicine
with no geriatric-use guidance is reduced by 0.2. Age 0 is treated as no age
given. -/
theorem age_penalty_nonzero_ages :
    ∀ (db : DB) (m : Medicine) (conds : List String) (a : Int),
      (truthy_text m.pediatric_use = false → a ≠ 0 → a < 12 →
        calculate_safety_score_unclamped db m conds (some a) =
          (calculate_safety_score_unclamped db m conds none).map
            (fun s => s - 0.3)) ∧
      (truthy_text m.geriatric_use = false → 65 < a →
        calculate_safety_score_unclamped db m conds (some a) =
          (calculate_safety_score_unclamped db m conds none).map
            (fun s => s - 0.2)) := by
  intro db m conds a
  constructor
  · intro hped hne hlt
    unfold calculate_safety_score_unclamped
    rcases hp : safety_condition_penalty db m.id conds with _ | p
    · rfl
    · dsimp only [Except.map]
      simp only [Except.ok.injEq]
      split_ifs <;> try ring1
      all_goals exfalso
      all_goals first | omega | simp_all
  · intro hger hgt
    unfold calculate_safety_score_unclamped
    rcases hp : safety_condition_penalty db m.id conds with _ | p
    · rfl
    · dsimp only [Except.map]
      simp only [Except.ok.injEq]
      split_ifs <;> try ring1
      all_goals exfalso
      all_goals first | omega | simp_all

/-- Witness for C7 at concrete ages 5 and 70. -/
theorem age_penalty_nonzero_ages_witness :
    calculate_safety_score_unclamped db_empty med1 [] (some 5) =
      (calculate_safety_score_unclamped db_empty med1 [] none).map
        (fun s => s - 0.3) ∧
    calculate_safety_score_unclamped db_empty med1 [] (some 70) =
      (calculate_safety_score_unclamped db_empty med1 [] none).map
        (fun s => s - 0.2) :=
  ⟨(age_penalty_nonzero_ages db_empty med1 [] 5).1 rfl (by decide) (by decide),
   (age_penalty_nonzero_ages db_empty med1 [] 70).2 rfl (by decide)⟩

/-- C8: for a fixed medicine and patient context, whenever the three severity
variants of `_calculate_medicine_score` all return, the "severe" score is at
least the "moderate" score, which is at least the "mild" score. -/
theorem severity_multiplier_monotone :
    ∀ (db : DB) (m : Medicine) (S C : List String) (a : Option Int)
      (g : Option String) (x y z : ℚ),
      calculate_medicine_score db m S C a g "severe" = Except.ok x →
      calculate_medicine_score db m S C a g "moderate" = Except.ok y →
      calculate_medicine_score db m S C a g "mild" = Except.ok z →
      z ≤ y ∧ y ≤ x := by
  intro db m S C a g x y z hx hy hz
  unfold calculate_medicine_score at hx hy hz
  rcases hs : calculate_safety_score db m C a with _ | s
  · rw [hs] at hx
    exact absurd hx (by simp)
  · rw [hs] at hx hy hz
    dsimp only at hx hy hz
    rw [if_neg (by decide : ¬("severe" : String) = "mild"),
      if_pos (rfl : ("severe" : String) = "severe")] at hx
    rw [if_neg (by decide : ¬("moderate" : String) = "mild"),
      if_neg (by decide : ¬("moderate" : String) = "severe")] at hy
    rw [if_pos (rfl : ("mild" : String) = "mild")] at hz
    simp only [Except.ok.injEq] at hx hy hz
    subst hx
    subst hy
    subst hz
    set b := get_effectiveness_for_symptoms db m S * 0.6 + s * 0.4 with hb
    constructor
    · refine max_le (le_max_left 0 b) ?_
      rcases le_total 0 b with h | h
      · have h08 : b * 0.8 ≤ b := by
          calc b * 0.8 ≤ b * 1 := mul_le_mul_of_nonneg_left (by norm_num) h
            _ = b := mul_one b
        exact le_trans h08 (le_max_right 0 b)
      · have h08 : b * 0.8 ≤ 0 := mul_nonpos_iff.mpr (Or.inr ⟨h, by norm_num⟩)
        exact le_trans h08 (le_max_left 0 b)
    · refine max_le (le_max_left 0 (b * 1.2)) ?_
      rcases le_total 0 b with h | h
      · have h12 : b ≤ b * 1.2 := by
          calc b = b * 1 := (mul_one b).symm
            _ ≤ b * 1.2 := mul_le_mul_of_nonneg_left (by norm_num) h
        exact le_trans h12 (le_max_right 0 (b * 1.2))
      · exact le_trans h (le_max_left 0 (b * 1.2))

/-- Witness for C8 at a concrete snapshot (scores 1.128, 0.94, 0.752). -/
theorem severity_multiplier_monotone_witness :
    (0.752 : ℚ) ≤ 0.94 ∧ (0.94 : ℚ) ≤ 1.128 :=
  severity_multiplier_monotone db_plain med1 ["Fever"] [] none none 1.128 0.94 0.752
    (by with_unfolding_all rfl) (by with_unfolding_all rfl)
    (by with_unfolding_all rfl)

/-- C9: the gender argument has no effect on `get_recommendations`: any two
gender values give identical results on all other inputs. -/
theorem gender_noninterference :
    ∀ (db : DB) (S C : List String) (a : Option Int) (sev : String)
      (g1 g2 : Option String),
      get_recommendations db S C a g1 sev = get_recommendations db S C a g2 sev := by
  intro db S C a sev g1 g2
  have hloop : ∀ ms : List Medicine,
      score_medicines_loop db S C a g1 sev ms =
        score_medicines_loop db S C a g2 sev ms := by
    intro ms
    induction ms with
    | nil => rfl
    | cons med rest ih =>
      simp only [score_medicines_loop]
      rw [show calculate_medicine_score db med S C a g1 sev =
        calculate_medicine_score db med S C a g2 sev from rfl]
      rw [ih]
  unfold get_recommendations
  simp only [hloop]

/-- Every entry of a returned recommendation list carries the score of some
candidate medicine (helper shared by the bound theorems). -/
theorem get_recommendations_ok_mem (db : DB) (S C : List String)
    (a : Option Int) (g : Option String) (sev : String)
    (l : List Recommendation)
    (h : get_recommendations db S C a g sev = Except.ok l) (e : Recommendation)
    (he : e ∈ l) :
    ∃ m ∈ search_medicines_by_symptoms db S,
      calculate_medicine_score db m S C a g sev = Except.ok e.score := by
  unfold get_recommendations at h
  by_cases h1 : S.isEmpty
  · rw [if_pos h1] at h
    simp only [Except.ok.injEq] at h
    subst h
    exact absurd he (List.not_mem_nil e)
  · rw [if_neg h1] at h
    dsimp only at h
    by_cases h2 : (search_medicines_by_symptoms db S).isEmpty
    · rw [if_pos h2] at h
      simp only [Except.ok.injEq] at h
      subst h
      exact absurd he (List.not_mem_nil e)
    · rw [if_neg h2] at h
      rcases hl : score_medicines_loop db S C a g sev
          (search_medicines_by_symptoms db S) with _ | scored
      · rw [hl] at h
        exact absurd h (by simp)
      · rw [hl] at h
        dsimp only at h
        simp only [Except.ok.injEq] at h
        subst h
        have hmem : e ∈ scored := (List.mem_insertionSort rec_ge).mp
          ((List.take_sublist 10 _).subset he)
        exact (score_medicines_loop_mem db S C a g sev _ scored hl e hmem).2

/-- C10 (implicit): assuming stored edge scores lie in [0,1], every returned
entry's total score is at most 1.2; and with severity "severe" the total can
reach 1.2 > 1, so callers must not assume totals are bounded by 1. -/
theorem total_score_bounded_by_six_fifths :
    (∀ (db : DB) (S C : List String) (a : Option Int) (g : Option String)
        (sev : String) (l : List Recommendation),
      (∀ ms ∈ db.medicine_symptoms,
        0 ≤ ms.effectiveness_score ∧ ms.effectiveness_score ≤ 1) →
      get_recommendations db S C a g sev = Except.ok l →
      ∀ e ∈ l, e.score ≤ 6 / 5) ∧
    (get_recommendations db_max ["Fever"] [] none none "severe" =
      Except.ok [Recommendation.mk med1 1.2 1 []] ∧ (1 : ℚ) < 1.2) := by
  constructor
  · intro db S C a g sev l H h e he
    obtain ⟨m, _, hcalc⟩ := get_recommendations_ok_mem db S C a g sev l h e he
    exact calculate_medicine_score_le db m S C a g sev e.score H hcalc
  · exact ⟨by with_unfolding_all rfl, by norm_num⟩

/-- Witness for C10's bounded part at a concrete snapshot. -/
theorem total_score_bounded_by_six_fifths_witness :
    (Recommendation.mk med1 0.94 0.9 []).score ≤ 6 / 5 :=
  total_score_bounded_by_six_fifths.1 db_plain ["Fever"] [] none none "moderate" _
    (by with_unfolding_all decide) (by with_unfolding_all rfl)
    (Recommendation.mk med1 0.94 0.9 []) (List.mem_singleton.mpr rfl)

end VirtualDoctor
